import Mathlib

/- Verification development for the attribution pipeline
   (journey builder, journey formatter, scoring client, aggregator/exporter).
   Each Python function under scrutiny is shallowly embedded as an executable
   Lean definition; machine floats are modelled by rationals, SQLite text
   comparison and pandas sort keys by explicit byte-lexicographic comparators,
   and Python exceptions by explicit error values. -/

/- Three-way comparators.  SQLite's BINARY collation and pandas string sorting
   compare strings byte-lexicographically; for UTF-8 that coincides with
   codepoint-lexicographic order, which is what these comparators implement.
   They are written with structural recursion so that the kernel can evaluate
   them on concrete inputs. -/

def natCmp (a b : Nat) : Ordering :=
  if a < b then .lt else if b < a then .gt else .eq

def intCmp (a b : Int) : Ordering :=
  if a < b then .lt else if b < a then .gt else .eq

def charCmp (a b : Char) : Ordering := natCmp a.toNat b.toNat

def listCmp {α : Type} (cmp : α → α → Ordering) : List α → List α → Ordering
  | [], [] => .eq
  | [], _ :: _ => .lt
  | _ :: _, [] => .gt
  | a :: as, b :: bs =>
    match cmp a b with
    | .eq => listCmp cmp as bs
    | o => o

def strCmp (a b : String) : Ordering := listCmp charCmp a.data b.data

def strLt (a b : String) : Bool := strCmp a b == .lt

def strLe (a b : String) : Bool := (strCmp a b).isLE

/-- Laws making a three-way comparator a linear comparison: antisymmetry of the
    orientation, `.eq` meaning genuine equality, and transitivity of `.lt`. -/
structure IsLinCmp {α : Type} (cmp : α → α → Ordering) : Prop where
  swap_eq : ∀ a b, cmp a b = (cmp b a).swap
  eq_means : ∀ a b, cmp a b = .eq → a = b
  lt_trans : ∀ a b c, cmp a b = .lt → cmp b c = .lt → cmp a c = .lt

def pairCmp {α β : Type} (ca : α → α → Ordering) (cb : β → β → Ordering)
    (x y : α × β) : Ordering :=
  (ca x.1 y.1).then (cb x.2 y.2)

/- Python dynamic values, as far as the pipeline's DataFrame cells need them:
   integers and strings.  Python truthiness: 0 and the empty string are falsy.
   Python equality across the two types is always False. -/

inductive PyVal : Type where
  | int : Int → PyVal
  | str : String → PyVal
deriving DecidableEq

def pyTruthy : PyVal → Bool
  | .int i => decide (i ≠ 0)
  | .str s => decide (s ≠ "")

def pyStr : PyVal → String
  | .int i => toString i
  | .str s => s

def pyCmp : PyVal → PyVal → Ordering
  | .int i, .int j => intCmp i j
  | .str a, .str b => strCmp a b
  | .int _, .str _ => .lt
  | .str _, .int _ => .gt

/- ----------------------------------------------------------------------
   Journey Formatter: IHCAttributionClient.format_journey_data
   (src/pipeline/send_to_api.py).
   ---------------------------------------------------------------------- -/

/-- One row of the journeys DataFrame as read by `format_journey_data`.
    `conv_id` is kept dynamically typed (pandas cells are untyped), the
    engagement flags are the integers coming from the database. -/
structure FRow : Type where
  conv_id : PyVal
  session_id : String
  channel_name : String
  event_date : String
  event_time : String
  holder_engagement : Int
  closer_engagement : Int
  impression_interaction : Int
deriving DecidableEq

/-- The per-session dict built in the loop body of `format_journey_data`:
    `bool(...)` applied to the engagement flags, timestamp space-joined. -/
structure SessionDict : Type where
  session_id : String
  timestamp : String
  channel_label : String
  holder_engagement : Bool
  closer_engagement : Bool
  impression_interaction : Bool
deriving DecidableEq

/-- A record appended to `formatted_journeys` by `format_journey_data`. -/
structure JRec : Type where
  conversion_id : String
  session_id : String
  timestamp : String
  channel_label : String
  holder_engagement : Bool
  closer_engagement : Bool
  conversion : Nat
  impression_interaction : Bool
deriving DecidableEq

def mkSession (row : FRow) : SessionDict :=
  { session_id := row.session_id
    timestamp := row.event_date ++ " " ++ row.event_time
    channel_label := row.channel_name
    holder_engagement := decide (row.holder_engagement ≠ 0)
    closer_engagement := decide (row.closer_engagement ≠ 0)
    impression_interaction := decide (row.impression_interaction ≠ 0) }

/-- The `journey` dict the source builds from `current_sessions`: all fields
    are taken from the FIRST collected session (`current_sessions[0]`), except
    `conversion`, which is 1 exactly when the LAST collected session
    (`current_sessions[-1]`) has a truthy `closer_engagement`. -/
def mkJourney (v : PyVal) (s0 : SessionDict) (rest : List SessionDict) : JRec :=
  { conversion_id := pyStr v
    session_id := s0.session_id
    timestamp := s0.timestamp
    channel_label := s0.channel_label
    holder_engagement := s0.holder_engagement
    closer_engagement := s0.closer_engagement
    conversion := if (rest.getLastD s0).closer_engagement then 1 else 0
    impression_interaction := s0.impression_interaction }

/-- The guarded emission `if current_conversion and current_sessions`:
    Python truthiness of `current_conversion` (None and falsy values blocked)
    and non-emptiness of `current_sessions`. -/
def flushGroup : Option PyVal → List SessionDict → List JRec
  | some v, s0 :: rest => if pyTruthy v then [mkJourney v s0 rest] else []
  | _, _ => []

/-- The row loop of `format_journey_data`.  On a conversion switch
    (`current_conversion != row['conv_id']`, with None unequal to everything)
    the pending group is flushed and the session list restarted. -/
def fjdLoop : Option PyVal → List SessionDict → List FRow → List JRec
  | cur, sess, [] => flushGroup cur sess
  | cur, sess, row :: rest =>
    if cur = some row.conv_id then
      fjdLoop cur (sess ++ [mkSession row]) rest
    else
      flushGroup cur sess ++ fjdLoop (some row.conv_id) [mkSession row] rest

/-- Sort key of `df.sort_values(['conv_id', 'event_date', 'event_time'])`. -/
def fmtKeyCmp (a b : FRow) : Ordering :=
  pairCmp pyCmp (pairCmp strCmp strCmp)
    (a.conv_id, a.event_date, a.event_time) (b.conv_id, b.event_date, b.event_time)

def fmtRowLe (a b : FRow) : Prop := (fmtKeyCmp a b).isLE = true

instance : DecidableRel fmtRowLe := fun a b =>
  inferInstanceAs (Decidable ((fmtKeyCmp a b).isLE = true))

/-- Shallow embedding of `IHCAttributionClient.format_journey_data`
    (src/pipeline/send_to_api.py, lines 38-100): sort by
    (conv_id, event_date, event_time), then run the grouping loop with the
    trailing flush.  Note: the source emits ONE aggregated record per
    conversion group, not one record per session. -/
def format_journey_data (rows : List FRow) : List JRec :=
  fjdLoop none [] (List.insertionSort fmtRowLe rows)

/- ----------------------------------------------------------------------
   Scoring Client: IHCAttributionClient.send_to_api
   (src/pipeline/send_to_api.py, lines 102-165).
   ---------------------------------------------------------------------- -/

/-- Outcome of one `requests.post` call: a raised network-level exception
    (any `requests.exceptions.RequestException`) or a delivered response with
    a status code and a decoded JSON body. -/
inductive TransportOutcome (α : Type) : Type where
  | exc : TransportOutcome α
  | resp : Nat → α → TransportOutcome α
deriving DecidableEq

/-- Instrumented result of `send_to_api`: how many attempts ran, how many
    `time.sleep(retry_delay)` calls happened, and the returned value
    (`none` models Python's `None`). -/
structure SendOutcome (α : Type) : Type where
  attempts : Nat
  sleeps : Nat
  result : Option α
deriving DecidableEq

/-- An attempt counts as failed exactly when the `except` clause runs:
    a network exception, or `response.raise_for_status()` raising, which
    happens precisely for status codes in [400, 600). -/
def attemptFails {α : Type} : TransportOutcome α → Bool
  | .exc => true
  | .resp s _ => decide (400 ≤ s ∧ s < 600)

/-- A 2xx response, the success class the specification speaks about. -/
def is2xx {α : Type} : TransportOutcome α → Bool
  | .exc => false
  | .resp s _ => decide (200 ≤ s ∧ s < 300)

/-- The `for attempt in range(retry_count)` loop of `send_to_api`, with the
    transport abstracted as a function from the attempt index to an outcome.
    A non-raising status returns `response.json()` at once; a failed attempt
    sleeps and retries unless it was the last one, in which case `None` is
    returned.  Falling off an empty loop also returns `None`. -/
def sendLoop {α : Type} (t : Nat → TransportOutcome α) : Nat → Nat → SendOutcome α
  | _, 0 => ⟨0, 0, none⟩
  | attempt, r + 1 =>
    match t attempt with
    | .resp s body =>
      if 400 ≤ s ∧ s < 600 then
        if r = 0 then ⟨1, 0, none⟩
        else
          let o := sendLoop t (attempt + 1) r
          ⟨o.attempts + 1, o.sleeps + 1, o.result⟩
      else ⟨1, 0, some body⟩
    | .exc =>
      if r = 0 then ⟨1, 0, none⟩
      else
        let o := sendLoop t (attempt + 1) r
        ⟨o.attempts + 1, o.sleeps + 1, o.result⟩

/-- Shallow embedding of `IHCAttributionClient.send_to_api` restricted to its
    control flow: the request payload (journeys plus the fixed redistribution
    parameter block) does not influence retrying, so it is abstracted into the
    transport function. -/
def send_to_api {α : Type} (t : Nat → TransportOutcome α) (retry_count : Nat) :
    SendOutcome α :=
  sendLoop t 0 retry_count

/-- A transport whose every attempt yields a 304 response: a non-2xx status
    that `raise_for_status` does not raise on. -/
def transport304 : Nat → TransportOutcome Unit := fun _ => .resp 304 ()

/- ----------------------------------------------------------------------
   Date/time parsing, modelling SQLite's datetime() on 'YYYY-MM-DD HH:MM:SS'
   text and pandas.to_datetime on the same strings.  Both agree with
   seconds-since-year-0 on well-formed values; malformed values make
   SQLite's datetime() return NULL, which makes the WHERE filter drop the
   row, modelled by the parser returning none.
   ---------------------------------------------------------------------- -/

def digitVal (c : Char) : Option Nat :=
  if '0' ≤ c ∧ c ≤ '9' then some (c.toNat - 48) else none

def isLeapYear (y : Nat) : Bool :=
  decide ((y % 4 = 0 ∧ y % 100 ≠ 0) ∨ y % 400 = 0)

def daysInMonth (y m : Nat) : Nat :=
  if m = 1 then 31 else if m = 2 then (if isLeapYear y then 29 else 28)
  else if m = 3 then 31 else if m = 4 then 30 else if m = 5 then 31
  else if m = 6 then 30 else if m = 7 then 31 else if m = 8 then 31
  else if m = 9 then 30 else if m = 10 then 31 else if m = 11 then 30
  else 31

def cumDaysBeforeMonth (y m : Nat) : Nat :=
  (List.range (m - 1)).foldl (fun acc i => acc + daysInMonth y (i + 1)) 0

/-- Days from 0000-01-01 to the first day of year `y` (proleptic Gregorian). -/
def daysBeforeYear (y : Nat) : Nat :=
  365 * y + (y + 3) / 4 - (y + 99) / 100 + (y + 399) / 400

def epochSeconds (y m d hh mi ss : Nat) : Nat :=
  (daysBeforeYear y + cumDaysBeforeMonth y m + (d - 1)) * 86400
    + hh * 3600 + mi * 60 + ss

/-- Parse 'YYYY-MM-DD' with range validation. -/
def parseDate (s : String) : Option (Nat × Nat × Nat) :=
  match s.data with
  | [y1, y2, y3, y4, c1, m1, m2, c2, d1, d2] =>
    if c1 = '-' ∧ c2 = '-' then
      match digitVal y1, digitVal y2, digitVal y3, digitVal y4,
            digitVal m1, digitVal m2, digitVal d1, digitVal d2 with
      | some a, some b, some c, some d, some e, some f, some g, some k =>
        let y := 1000 * a + 100 * b + 10 * c + d
        let m := 10 * e + f
        let dd := 10 * g + k
        if 1 ≤ m ∧ m ≤ 12 ∧ 1 ≤ dd ∧ dd ≤ daysInMonth y m then
          some (y, m, dd)
        else none
      | _, _, _, _, _, _, _, _ => none
    else none
  | _ => none

/-- Parse 'HH:MM:SS' with range validation. -/
def parseTime (s : String) : Option (Nat × Nat × Nat) :=
  match s.data with
  | [h1, h2, c1, m1, m2, c2, s1, s2] =>
    if c1 = ':' ∧ c2 = ':' then
      match digitVal h1, digitVal h2, digitVal m1, digitVal m2,
            digitVal s1, digitVal s2 with
      | some a, some b, some c, some d, some e, some f =>
        let hh := 10 * a + b
        let mi := 10 * c + d
        let ss := 10 * e + f
        if hh ≤ 23 ∧ mi ≤ 59 ∧ ss ≤ 59 then some (hh, mi, ss) else none
      | _, _, _, _, _, _ => none
    else none
  | _ => none

/-- Seconds-since-year-0 value of a (date string, time string) pair, the model
    of both `datetime(event_date || ' ' || event_time)` in SQLite and
    `pd.to_datetime(event_date + ' ' + event_time)` in pandas. -/
def parseDateTime (d t : String) : Option Nat :=
  match parseDate d, parseTime t with
  | some (y, m, dd), some (hh, mi, ss) => some (epochSeconds y m dd hh mi ss)
  | _, _ => none

/- ----------------------------------------------------------------------
   Journey Builder: CustomerJourneyBuilder.build_journeys
   (src/pipeline/build_customer_journey.py, lines 43-110).
   ---------------------------------------------------------------------- -/

/-- A row of the `session_sources` table. -/
structure SessionRow : Type where
  session_id : String
  user_id : String
  channel_name : String
  event_date : String
  event_time : String
  holder_engagement : Int
  closer_engagement : Int
  impression_interaction : Int
deriving DecidableEq

/-- A row of the `conversions` table. -/
structure ConversionRow : Type where
  conv_id : String
  user_id : String
  conv_date : String
  conv_time : String
  revenue : Rat
deriving DecidableEq

/-- A row of the `session_costs` table (one row per session_id). -/
structure CostRow : Type where
  session_id : String
  cost : Rat
deriving DecidableEq

/-- A row of the journeys DataFrame: the columns selected by the query plus
    the three columns added in pandas (`session_datetime`, `conv_datetime` —
    modelled by their seconds value — and `time_to_conv`). -/
structure JourneyRow : Type where
  conv_id : String
  user_id : String
  conv_date : String
  conv_time : String
  revenue : Rat
  session_id : String
  channel_name : String
  event_date : String
  event_time : String
  holder_engagement : Int
  closer_engagement : Int
  impression_interaction : Int
  cost : Option Rat
  session_ts : Nat
  conv_ts : Nat
  time_to_conv : Rat
deriving DecidableEq

/-- LEFT JOIN session_costs ON session_id: the matched cost or SQL NULL. -/
def lookupCost (costs : List CostRow) (sid : String) : Option Rat :=
  (costs.find? (fun cr => cr.session_id == sid)).map CostRow.cost

def mkJourneyRow (c : ConversionRow) (s : SessionRow) (costs : List CostRow)
    (ts tc : Nat) : JourneyRow :=
  { conv_id := c.conv_id
    user_id := c.user_id
    conv_date := c.conv_date
    conv_time := c.conv_time
    revenue := c.revenue
    session_id := s.session_id
    channel_name := s.channel_name
    event_date := s.event_date
    event_time := s.event_time
    holder_engagement := s.holder_engagement
    closer_engagement := s.closer_engagement
    impression_interaction := s.impression_interaction
    cost := lookupCost costs s.session_id
    session_ts := ts
    conv_ts := tc
    time_to_conv := ((tc : Int) - (ts : Int) : Int) / (3600 : Rat) }

/-- ORDER BY conv_id, event_date, event_time (ascending, BINARY collation). -/
def jrowKeyCmp (a b : JourneyRow) : Ordering :=
  pairCmp strCmp (pairCmp strCmp strCmp)
    (a.conv_id, a.event_date, a.event_time) (b.conv_id, b.event_date, b.event_time)

def jrowLe (a b : JourneyRow) : Prop := (jrowKeyCmp a b).isLE = true

instance : DecidableRel jrowLe := fun a b =>
  inferInstanceAs (Decidable ((jrowKeyCmp a b).isLE = true))

/-- Python truthiness of an optional date argument: `start_date and end_date`
    skips the filter when either is None or the empty string. -/
def pyTruthyOptStr (o : Option String) : Bool :=
  match o with
  | none => false
  | some s => decide (s ≠ "")

/-- Shallow embedding of `CustomerJourneyBuilder.build_journeys`:
    JOIN conversions to session_sources on user_id, LEFT JOIN session_costs,
    WHERE datetime(event) <= datetime(conversion) (rows whose date or time
    text SQLite cannot parse are dropped, since the comparison is NULL),
    optional `conv_date BETWEEN start_date AND end_date` (inclusive,
    lexicographic on the date text), ORDER BY conv_id, event_date, event_time,
    then the pandas-derived columns added by `mkJourneyRow`. -/
def joinedJourneys (convs : List ConversionRow) (sessions : List SessionRow)
    (costs : List CostRow) : List JourneyRow :=
  convs.flatMap (fun c =>
    (sessions.filter (fun s => s.user_id == c.user_id)).filterMap (fun s =>
      match parseDateTime s.event_date s.event_time,
            parseDateTime c.conv_date c.conv_time with
      | some ts, some tc =>
        if ts ≤ tc then some (mkJourneyRow c s costs ts tc) else none
      | _, _ => none))

def build_journeys (convs : List ConversionRow) (sessions : List SessionRow)
    (costs : List CostRow) (start_date end_date : Option String) :
    List JourneyRow :=
  List.insertionSort jrowLe
    (if pyTruthyOptStr start_date ∧ pyTruthyOptStr end_date then
      (joinedJourneys convs sessions costs).filter (fun r =>
        strLe (start_date.getD "") r.conv_date
          && strLe r.conv_date (end_date.getD ""))
    else joinedJourneys convs sessions costs)

/- ----------------------------------------------------------------------
   Journey validation: CustomerJourneyBuilder._validate_journeys
   (src/pipeline/build_customer_journey.py, lines 112-137).
   ---------------------------------------------------------------------- -/

/-- A pandas DataFrame, column-oriented: a list of (column name, cells),
    where a `none` cell is a null (NaN). -/
structure DataFrame : Type where
  cols : List (String × List (Option PyVal))
deriving DecidableEq

def DataFrame.hasCol (df : DataFrame) (name : String) : Bool :=
  df.cols.any (fun c => c.1 == name)

def DataFrame.col (df : DataFrame) (name : String) : List (Option PyVal) :=
  ((df.cols.find? (fun c => c.1 == name)).map (fun c => c.2)).getD []

/-- What `_validate_journeys` did before returning: the warnings it logged and
    the exception, if any, that escaped it. -/
structure ValidationOutcome : Type where
  warnings : List String
  error : Option String
deriving DecidableEq

def requiredColumns : List String :=
  ["conv_id", "user_id", "session_id", "channel_name",
   "holder_engagement", "closer_engagement", "impression_interaction"]

def engagementColumns : List String :=
  ["holder_engagement", "closer_engagement", "impression_interaction"]

/-- True when the cell would make `isin([0, 1])` false: nulls and every value
    other than the integers 0 and 1. -/
def cellNotBinary (v : Option PyVal) : Bool :=
  !(v == some (.int 0) || v == some (.int 1))

/-- Shallow embedding of `CustomerJourneyBuilder._validate_journeys`.
    The source first logs a warning listing absent required columns, but then
    evaluates `df[required_columns]`, which raises KeyError when any required
    column is absent — so the missing-column case warns AND raises.  With all
    columns present it only logs warnings (nulls, non-binary engagement
    flags) and returns normally. -/
def validate_journeys (df : DataFrame) : ValidationOutcome :=
  let missing := requiredColumns.filter (fun c => !(df.hasCol c))
  let w1 := if missing.isEmpty then [] else ["Missing required columns"]
  if missing.isEmpty then
    let w2 :=
      if requiredColumns.any (fun c => (df.col c).any (fun v => v.isNone)) then
        ["Null values found"]
      else []
    let w3 :=
      (engagementColumns.filter
        (fun c => (df.col c).any cellNotBinary)).map
        (fun c => "Invalid values in " ++ c)
    { warnings := w1 ++ w2 ++ w3, error := none }
  else
    { warnings := w1, error := some "KeyError" }

/- ----------------------------------------------------------------------
   Journey statistics: CustomerJourneyBuilder.get_journey_stats
   (src/pipeline/build_customer_journey.py, lines 139-160).
   ---------------------------------------------------------------------- -/

/-- Distinct values keeping first occurrences (pandas `nunique`, `unique`). -/
def uniqueAux {α : Type} [DecidableEq α] (seen : List α) : List α → List α
  | [] => []
  | a :: as => if a ∈ seen then uniqueAux seen as else a :: uniqueAux (a :: seen) as

def uniqueFirst {α : Type} [DecidableEq α] (l : List α) : List α :=
  uniqueAux [] l

/-- Lexicographic string minimum / maximum of a column, pandas `min` / `max`. -/
def strListMin (l : List String) : String :=
  l.foldl (fun a b => if strLt b a then b else a) (l.headD "")

def strListMax (l : List String) : String :=
  l.foldl (fun a b => if strLt a b then b else a) (l.headD "")

/-- The dict literal built by `get_journey_stats`. -/
structure JourneyStats : Type where
  total_conversions : Nat
  total_sessions : Nat
  unique_users : Nat
  avg_sessions_per_journey : Rat
  channels : List String
  date_range : String
  total_revenue : Rat
  avg_revenue_per_conversion : Rat
deriving DecidableEq

/-- `df.groupby('conv_id')['revenue'].first()`: for every distinct conv_id,
    the revenue of its first row. -/
def firstRevenues (rows : List JourneyRow) : List Rat :=
  (uniqueFirst (rows.map JourneyRow.conv_id)).map (fun cid =>
    ((rows.find? (fun r => r.conv_id == cid)).map JourneyRow.revenue).getD 0)

/-- Shallow embedding of `CustomerJourneyBuilder.get_journey_stats`.  The dict
    literal evaluates `len(df) / df['conv_id'].nunique()` while being built,
    so zero distinct conv_id values raise ZeroDivisionError (both operands are
    Python ints) before any dict is produced. -/
def nConversions (rows : List JourneyRow) : Nat :=
  (uniqueFirst (rows.map JourneyRow.conv_id)).length

def get_journey_stats (rows : List JourneyRow) : Except String JourneyStats :=
  if nConversions rows = 0 then .error "ZeroDivisionError"
  else
    .ok
      { total_conversions := nConversions rows
        total_sessions := rows.length
        unique_users := (uniqueFirst (rows.map JourneyRow.user_id)).length
        avg_sessions_per_journey :=
          (rows.length : Rat) / (nConversions rows : Rat)
        channels := uniqueFirst (rows.map JourneyRow.channel_name)
        date_range := strListMin (rows.map JourneyRow.event_date) ++ " to "
          ++ strListMax (rows.map JourneyRow.event_date)
        total_revenue := (firstRevenues rows).sum
        avg_revenue_per_conversion :=
          (firstRevenues rows).sum / (nConversions rows : Rat) }

/- ----------------------------------------------------------------------
   Report Exporter: AttributionProcessor.export_channel_report
   (src/pipeline/attribution_processor.py, lines 98-127).
   ---------------------------------------------------------------------- -/

/-- A Python float as far as the exporter needs it: a finite value
    or `float('inf')`. -/
inductive PyFloat : Type where
  | val : Rat → PyFloat
  | inf : PyFloat
deriving DecidableEq

/-- A row of the `channel_reporting` table. -/
structure ChannelAggRow : Type where
  channel_name : String
  date : String
  cost : Rat
  ihc : Rat
  ihc_revenue : Rat
deriving DecidableEq

/-- A row of the exported CSV: the aggregate columns plus the two ratios. -/
structure ChannelReportRow : Type where
  channel_name : String
  date : String
  cost : Rat
  ihc : Rat
  ihc_revenue : Rat
  CPO : PyFloat
  ROAS : Rat
deriving DecidableEq

/-- ORDER BY date, channel_name. -/
def reportKeyCmp (a b : ChannelAggRow) : Ordering :=
  pairCmp strCmp strCmp (a.date, a.channel_name) (b.date, b.channel_name)

def reportLe (a b : ChannelAggRow) : Prop := (reportKeyCmp a b).isLE = true

instance : DecidableRel reportLe := fun a b =>
  inferInstanceAs (Decidable ((reportKeyCmp a b).isLE = true))

def mkReportRow (r : ChannelAggRow) : ChannelReportRow :=
  { channel_name := r.channel_name
    date := r.date
    cost := r.cost
    ihc := r.ihc
    ihc_revenue := r.ihc_revenue
    CPO := if 0 < r.ihc then .val (r.cost / r.ihc) else .inf
    ROAS := if 0 < r.cost then r.ihc_revenue / r.cost else 0 }

/-- Shallow embedding of `AttributionProcessor.export_channel_report`:
    read channel_reporting ordered by (date, channel_name), derive
    `CPO = cost / ihc` guarded by `ihc > 0` with `float('inf')` otherwise and
    `ROAS = ihc_revenue / cost` guarded by `cost > 0` with `0` otherwise. -/
def export_channel_report (rows : List ChannelAggRow) : List ChannelReportRow :=
  (List.insertionSort reportLe rows).map mkReportRow

/- ----------------------------------------------------------------------
   Concrete inputs referenced by the closed theorems below.
   ---------------------------------------------------------------------- -/

/-- One journey row whose single session has `closer_engagement = 0`. -/
def fRowSingle : FRow :=
  { conv_id := .str "c1", session_id := "s1", channel_name := "Organic"
    event_date := "2024-01-01", event_time := "10:00:00"
    holder_engagement := 1, closer_engagement := 0, impression_interaction := 1 }

/-- Two sessions of one conversion. -/
def fRowA : FRow :=
  { conv_id := .str "c1", session_id := "s1", channel_name := "Organic"
    event_date := "2024-01-01", event_time := "10:00:00"
    holder_engagement := 1, closer_engagement := 0, impression_interaction := 1 }

def fRowB : FRow :=
  { conv_id := .str "c1", session_id := "s2", channel_name := "Paid"
    event_date := "2024-01-01", event_time := "11:00:00"
    holder_engagement := 0, closer_engagement := 1, impression_interaction := 1 }

/-- A group with falsy conv_id (the integer 0) and a truthy group. -/
def fRowFalsy : FRow :=
  { conv_id := .int 0, session_id := "s0", channel_name := "Direct"
    event_date := "2024-01-01", event_time := "09:00:00"
    holder_engagement := 1, closer_engagement := 1, impression_interaction := 0 }

def fRowTruthy : FRow :=
  { conv_id := .str "c9w", session_id := "s9", channel_name := "Paid"
    event_date := "2024-01-02", event_time := "12:00:00"
    holder_engagement := 1, closer_engagement := 1, impression_interaction := 0 }

/-- A conversion and a session preceding it, for the builder witnesses. -/
def convW : ConversionRow :=
  { conv_id := "c1", user_id := "u1", conv_date := "2024-01-01"
    conv_time := "12:00:00", revenue := 1000 }

def sessW : SessionRow :=
  { session_id := "s1", user_id := "u1", channel_name := "Organic"
    event_date := "2024-01-01", event_time := "10:00:00"
    holder_engagement := 1, closer_engagement := 0, impression_interaction := 1 }

def jrowDefault : JourneyRow :=
  { conv_id := "", user_id := "", conv_date := "", conv_time := "", revenue := 0
    session_id := "", channel_name := "", event_date := "", event_time := ""
    holder_engagement := 0, closer_engagement := 0, impression_interaction := 0
    cost := none, session_ts := 0, conv_ts := 0, time_to_conv := 0 }

/-- A journeys DataFrame lacking the required `user_id` column. -/
def dfMissingUserId : DataFrame :=
  { cols := [("conv_id", [some (.str "c1")]), ("session_id", [some (.str "s1")]),
             ("channel_name", [some (.str "Organic")]),
             ("holder_engagement", [some (.int 1)]),
             ("closer_engagement", [some (.int 0)]),
             ("impression_interaction", [some (.int 1)])] }

/-- A journeys DataFrame with all required columns, one null and one
    out-of-domain engagement value. -/
def dfBadValues : DataFrame :=
  { cols := [("conv_id", [some (.str "c1"), some (.str "c2")]),
             ("user_id", [some (.str "u1"), none]),
             ("session_id", [some (.str "s1"), some (.str "s2")]),
             ("channel_name", [some (.str "Organic"), some (.str "Paid")]),
             ("holder_engagement", [some (.int 1), some (.int 2)]),
             ("closer_engagement", [some (.int 0), some (.int 1)]),
             ("impression_interaction", [some (.int 1), some (.int 0)])] }

/-- A journey row for the statistics witness. -/
def jrowW : JourneyRow :=
  { conv_id := "c1", user_id := "u1", conv_date := "2024-01-01"
    conv_time := "12:00:00", revenue := 1000
    session_id := "s1", channel_name := "Organic"
    event_date := "2024-01-01", event_time := "10:00:00"
    holder_engagement := 1, closer_engagement := 0, impression_interaction := 1
    cost := some 10, session_ts := 0, conv_ts := 7200, time_to_conv := 2 }

/-- An aggregate row with zero credit and positive cost. -/
def aggW : ChannelAggRow :=
  { channel_name := "Organic", date := "2024-01-01"
    cost := 2, ihc := 0, ihc_revenue := 5 }

def reportDefault : ChannelReportRow :=
  { channel_name := "", date := "", cost := 0, ihc := 0, ihc_revenue := 0
    CPO := .inf, ROAS := 0 }

/- ----------------------------------------------------------------------
   Comparator laws.
   ---------------------------------------------------------------------- -/

theorem headD_mem {α : Type} (l : List α) (d : α) (h : l ≠ []) : l.headD d ∈ l := by
  cases l with
  | nil => exact absurd rfl h
  | cons a as => exact List.mem_cons_self a as

theorem ordering_isLE_iff (o : Ordering) : o.isLE = true ↔ o ≠ .gt := by
  cases o <;> simp [Ordering.isLE]

theorem natCmp_lt_iff (a b : Nat) : natCmp a b = .lt ↔ a < b := by
  unfold natCmp; split_ifs <;> simp <;> omega

theorem natCmp_gt_iff (a b : Nat) : natCmp a b = .gt ↔ b < a := by
  unfold natCmp; split_ifs <;> simp <;> omega

theorem natCmp_eq_iff (a b : Nat) : natCmp a b = .eq ↔ a = b := by
  unfold natCmp; split_ifs <;> simp <;> omega

theorem natCmp_isLin : IsLinCmp natCmp := by
  refine ⟨?_, ?_, ?_⟩
  · intro a b
    rcases Nat.lt_trichotomy a b with h | h | h
    · rw [(natCmp_lt_iff a b).mpr h, (natCmp_gt_iff b a).mpr h]; rfl
    · rw [(natCmp_eq_iff a b).mpr h, (natCmp_eq_iff b a).mpr h.symm]; rfl
    · rw [(natCmp_gt_iff a b).mpr h, (natCmp_lt_iff b a).mpr h]; rfl
  · intro a b h; exact (natCmp_eq_iff a b).mp h
  · intro a b c hab hbc
    exact (natCmp_lt_iff a c).mpr
      (Nat.lt_trans ((natCmp_lt_iff a b).mp hab) ((natCmp_lt_iff b c).mp hbc))

theorem intCmp_lt_iff (a b : Int) : intCmp a b = .lt ↔ a < b := by
  unfold intCmp; split_ifs <;> simp <;> omega

theorem intCmp_gt_iff (a b : Int) : intCmp a b = .gt ↔ b < a := by
  unfold intCmp; split_ifs <;> simp <;> omega

theorem intCmp_eq_iff (a b : Int) : intCmp a b = .eq ↔ a = b := by
  unfold intCmp; split_ifs <;> simp <;> omega

theorem intCmp_isLin : IsLinCmp intCmp := by
  refine ⟨?_, ?_, ?_⟩
  · intro a b
    rcases Int.lt_trichotomy a b with h | h | h
    · rw [(intCmp_lt_iff a b).mpr h, (intCmp_gt_iff b a).mpr h]; rfl
    · rw [(intCmp_eq_iff a b).mpr h, (intCmp_eq_iff b a).mpr h.symm]; rfl
    · rw [(intCmp_gt_iff a b).mpr h, (intCmp_lt_iff b a).mpr h]; rfl
  · intro a b h; exact (intCmp_eq_iff a b).mp h
  · intro a b c hab hbc
    exact (intCmp_lt_iff a c).mpr
      (Int.lt_trans ((intCmp_lt_iff a b).mp hab) ((intCmp_lt_iff b c).mp hbc))


theorem then_eq_eq_iff (o p : Ordering) :
    o.then p = Ordering.eq ↔ o = .eq ∧ p = .eq := by
  cases o <;> simp [Ordering.then]

theorem then_eq_lt_iff (o p : Ordering) :
    o.then p = Ordering.lt ↔ o = .lt ∨ (o = .eq ∧ p = .lt) := by
  cases o <;> simp [Ordering.then]

theorem then_eq_gt_iff (o p : Ordering) :
    o.then p = Ordering.gt ↔ o = .gt ∨ (o = .eq ∧ p = .gt) := by
  cases o <;> simp [Ordering.then]

theorem listCmp_cons {α : Type} (cmp : α → α → Ordering) (a b : α)
    (as bs : List α) :
    listCmp cmp (a :: as) (b :: bs) = (cmp a b).then (listCmp cmp as bs) := by
  cases h : cmp a b <;> simp [listCmp, h, Ordering.then]

theorem charCmp_isLin : IsLinCmp charCmp := by
  refine ⟨?_, ?_, ?_⟩
  · intro a b; exact natCmp_isLin.swap_eq a.toNat b.toNat
  · intro a b h
    exact Char.ext (UInt32.toNat.inj (natCmp_isLin.eq_means _ _ h))
  · intro a b c hab hbc; exact natCmp_isLin.lt_trans _ _ _ hab hbc

theorem listCmp_isLin {α : Type} {cmp : α → α → Ordering} (h : IsLinCmp cmp) :
    IsLinCmp (listCmp cmp) := by
  refine ⟨?_, ?_, ?_⟩
  · intro l1
    induction l1 with
    | nil => intro l2; cases l2 <;> rfl
    | cons a as ih =>
      intro l2
      cases l2 with
      | nil => rfl
      | cons b bs =>
        rw [listCmp_cons, listCmp_cons, h.swap_eq a b, ih bs]
        cases cmp b a <;> cases listCmp cmp bs as <;> rfl
  · intro l1
    induction l1 with
    | nil =>
      intro l2 hl
      cases l2 with
      | nil => rfl
      | cons b bs => exact absurd hl (by simp [listCmp])
    | cons a as ih =>
      intro l2 hl
      cases l2 with
      | nil => exact absurd hl (by simp [listCmp])
      | cons b bs =>
        rw [listCmp_cons] at hl
        rcases (then_eq_eq_iff _ _).mp hl with ⟨h1, h2⟩
        rw [h.eq_means a b h1, ih bs h2]
  · intro l1
    induction l1 with
    | nil =>
      intro l2 l3 h12 h23
      cases l2 with
      | nil => exact h23
      | cons b bs =>
        cases l3 with
        | nil => exact absurd h23 (by simp [listCmp])
        | cons c cs => rfl
    | cons a as ih =>
      intro l2 l3 h12 h23
      cases l2 with
      | nil => exact absurd h12 (by simp [listCmp])
      | cons b bs =>
        cases l3 with
        | nil => exact absurd h23 (by simp [listCmp])
        | cons c cs =>
          rw [listCmp_cons] at h12 h23 ⊢
          rcases (then_eq_lt_iff _ _).mp h12 with h1 | ⟨h1, h1'⟩ <;>
            rcases (then_eq_lt_iff _ _).mp h23 with h2 | ⟨h2, h2'⟩
          · exact (then_eq_lt_iff _ _).mpr (Or.inl (h.lt_trans _ _ _ h1 h2))
          · rw [← h.eq_means b c h2]
            exact (then_eq_lt_iff _ _).mpr (Or.inl h1)
          · rw [h.eq_means a b h1]
            exact (then_eq_lt_iff _ _).mpr (Or.inl h2)
          · rw [h.eq_means a b h1]
            exact (then_eq_lt_iff _ _).mpr (Or.inr ⟨h2, ih bs cs h1' h2'⟩)

theorem strCmp_isLin : IsLinCmp strCmp := by
  refine ⟨?_, ?_, ?_⟩
  · intro a b; exact (listCmp_isLin charCmp_isLin).swap_eq a.data b.data
  · intro a b hab
    have hd := (listCmp_isLin charCmp_isLin).eq_means _ _ hab
    exact congrArg String.mk hd
  · intro a b c hab hbc
    exact (listCmp_isLin charCmp_isLin).lt_trans _ _ _ hab hbc

theorem pyCmp_isLin : IsLinCmp pyCmp := by
  refine ⟨?_, ?_, ?_⟩
  · intro a b
    cases a <;> cases b
    · exact intCmp_isLin.swap_eq _ _
    · rfl
    · rfl
    · exact strCmp_isLin.swap_eq _ _
  · intro a b hab
    cases a <;> cases b <;> simp only [pyCmp] at hab
    · rw [intCmp_isLin.eq_means _ _ hab]
    · exact absurd hab (by simp)
    · exact absurd hab (by simp)
    · rw [strCmp_isLin.eq_means _ _ hab]
  · intro a b c hab hbc
    cases a <;> cases b <;> cases c <;> simp only [pyCmp] at hab hbc ⊢ <;>
      first
      | exact intCmp_isLin.lt_trans _ _ _ hab hbc
      | exact strCmp_isLin.lt_trans _ _ _ hab hbc
      | exact absurd hab (by decide)
      | exact absurd hbc (by decide)

theorem pairCmp_isLin {α β : Type} {ca : α → α → Ordering}
    {cb : β → β → Ordering} (ha : IsLinCmp ca) (hb : IsLinCmp cb) :
    IsLinCmp (pairCmp ca cb) := by
  refine ⟨?_, ?_, ?_⟩
  · intro x y
    simp only [pairCmp]
    rw [ha.swap_eq x.1 y.1, hb.swap_eq x.2 y.2]
    cases ca y.1 x.1 <;> cases cb y.2 x.2 <;> rfl
  · intro x y hxy
    simp only [pairCmp] at hxy
    rcases (then_eq_eq_iff _ _).mp hxy with ⟨h1, h2⟩
    exact Prod.ext (ha.eq_means _ _ h1) (hb.eq_means _ _ h2)
  · intro x y z hxy hyz
    simp only [pairCmp] at hxy hyz ⊢
    rcases (then_eq_lt_iff _ _).mp hxy with h1 | ⟨h1, h1'⟩ <;>
      rcases (then_eq_lt_iff _ _).mp hyz with h2 | ⟨h2, h2'⟩
    · exact (then_eq_lt_iff _ _).mpr (Or.inl (ha.lt_trans _ _ _ h1 h2))
    · rw [← ha.eq_means _ _ h2]
      exact (then_eq_lt_iff _ _).mpr (Or.inl h1)
    · rw [ha.eq_means _ _ h1]
      exact (then_eq_lt_iff _ _).mpr (Or.inl h2)
    · rw [ha.eq_means _ _ h1]
      exact (then_eq_lt_iff _ _).mpr (Or.inr ⟨h2, hb.lt_trans _ _ _ h1' h2'⟩)

theorem IsLinCmp.cmp_refl {α : Type} {cmp : α → α → Ordering}
    (h : IsLinCmp cmp) (a : α) : cmp a a = .eq := by
  have hs := h.swap_eq a a
  rcases hc : cmp a a with _ | _ | _
  · rw [hc] at hs; exact absurd hs (by decide)
  · rfl
  · rw [hc] at hs; exact absurd hs (by decide)

theorem IsLinCmp.isLE_total {α : Type} {cmp : α → α → Ordering}
    (h : IsLinCmp cmp) (a b : α) :
    (cmp a b).isLE = true ∨ (cmp b a).isLE = true := by
  cases hc : cmp a b
  · exact Or.inl rfl
  · exact Or.inl rfl
  · have hs := h.swap_eq b a
    rw [hc] at hs
    right; rw [hs]; rfl

theorem IsLinCmp.isLE_trans {α : Type} {cmp : α → α → Ordering}
    (h : IsLinCmp cmp) (a b c : α) (hab : (cmp a b).isLE = true)
    (hbc : (cmp b c).isLE = true) : (cmp a c).isLE = true := by
  cases h1 : cmp a b <;> rw [h1] at hab
  · cases h2 : cmp b c <;> rw [h2] at hbc
    · rw [h.lt_trans _ _ _ h1 h2]; rfl
    · rw [← h.eq_means _ _ h2, h1]; rfl
    · exact absurd hbc (by simp [Ordering.isLE])
  · rw [h.eq_means _ _ h1]; exact hbc
  · exact absurd hab (by simp [Ordering.isLE])

theorem IsLinCmp.eq_of_isLE_both {α : Type} {cmp : α → α → Ordering}
    (h : IsLinCmp cmp) {a b : α} (hab : (cmp a b).isLE = true)
    (hba : (cmp b a).isLE = true) : a = b := by
  cases h1 : cmp a b <;> rw [h1] at hab
  · have hs := h.swap_eq b a
    rw [h1] at hs
    rw [hs] at hba
    exact absurd hba (by simp [Ordering.swap, Ordering.isLE])
  · exact h.eq_means _ _ h1
  · exact absurd hab (by simp [Ordering.isLE])

instance : IsTotal FRow fmtRowLe :=
  ⟨fun a b =>
    (pairCmp_isLin pyCmp_isLin (pairCmp_isLin strCmp_isLin strCmp_isLin)).isLE_total
      (a.conv_id, a.event_date, a.event_time) (b.conv_id, b.event_date, b.event_time)⟩

instance : IsTrans FRow fmtRowLe :=
  ⟨fun _ _ _ hab hbc =>
    (pairCmp_isLin pyCmp_isLin (pairCmp_isLin strCmp_isLin strCmp_isLin)).isLE_trans
      _ _ _ hab hbc⟩

instance : IsTotal JourneyRow jrowLe :=
  ⟨fun a b =>
    (pairCmp_isLin strCmp_isLin (pairCmp_isLin strCmp_isLin strCmp_isLin)).isLE_total
      (a.conv_id, a.event_date, a.event_time) (b.conv_id, b.event_date, b.event_time)⟩

instance : IsTrans JourneyRow jrowLe :=
  ⟨fun _ _ _ hab hbc =>
    (pairCmp_isLin strCmp_isLin (pairCmp_isLin strCmp_isLin strCmp_isLin)).isLE_trans
      _ _ _ hab hbc⟩

instance : IsTotal ChannelAggRow reportLe :=
  ⟨fun a b =>
    (pairCmp_isLin strCmp_isLin strCmp_isLin).isLE_total
      (a.date, a.channel_name) (b.date, b.channel_name)⟩

instance : IsTrans ChannelAggRow reportLe :=
  ⟨fun _ _ _ hab hbc =>
    (pairCmp_isLin strCmp_isLin strCmp_isLin).isLE_trans _ _ _ hab hbc⟩

/- ----------------------------------------------------------------------
   Claims C1 and C2: the Formatter's per-group aggregation.
   ---------------------------------------------------------------------- -/

/-- C1: the claim states that every conversion group of the
    `format_journey_data` output contains exactly one record with
    `conversion = 1`, namely the group's last record, and that a
    single-session conversion yields exactly one record with `conversion = 1`.
    The code disagrees: a single-session group whose session has
    `closer_engagement = 0` yields exactly one record and that record carries
    `conversion = 0`, so its group contains NO record with `conversion = 1`. -/
theorem c1_single_session_group_has_no_conversion_one :
    format_journey_data [fRowSingle] =
      [{ conversion_id := "c1", session_id := "s1",
         timestamp := "2024-01-01 10:00:00", channel_label := "Organic",
         holder_engagement := true, closer_engagement := false,
         conversion := 0, impression_interaction := true }] ∧
    (format_journey_data [fRowSingle]).countP
      (fun rec => rec.conversion == 1) = 0 := by
  constructor <;> decide

/-- C2: the claim states that `format_journey_data` returns one record per
    input session row.  The code disagrees: a conversion with two qualifying
    sessions contributes a single aggregated record (carrying the FIRST
    session's `session_id`), not two per-session records. -/
theorem c2_two_sessions_yield_one_record :
    (format_journey_data [fRowA, fRowB]).length = 1 ∧
    (format_journey_data [fRowA, fRowB]).map JRec.session_id = ["s1"] := by
  constructor <;> decide

/- ----------------------------------------------------------------------
   Claim C9: falsy conv_id groups are dropped, truthy ones are emitted.
   ---------------------------------------------------------------------- -/

theorem flushGroup_mem {cur : Option PyVal} {sess : List SessionDict}
    {rec : JRec} (h : rec ∈ flushGroup cur sess) :
    ∃ v s0 rest, cur = some v ∧ sess = s0 :: rest ∧ pyTruthy v = true ∧
      rec = mkJourney v s0 rest := by
  cases cur with
  | none => simp [flushGroup] at h
  | some v =>
    cases sess with
    | nil => simp [flushGroup] at h
    | cons s0 rest =>
      simp only [flushGroup] at h
      split at h
      · rename_i hv
        exact ⟨v, s0, rest, rfl, rfl, hv, by simpa using h⟩
      · simp at h

theorem fjdLoop_origin (rows : List FRow) :
    ∀ (cur : Option PyVal) (sess : List SessionDict) (rec : JRec),
      rec ∈ fjdLoop cur sess rows →
      ∃ v, pyTruthy v = true ∧ rec.conversion_id = pyStr v ∧
        (cur = some v ∨ v ∈ rows.map FRow.conv_id) := by
  induction rows with
  | nil =>
    intro cur sess rec h
    simp only [fjdLoop] at h
    obtain ⟨v, s0, rst, hcur, _, hv, hrec⟩ := flushGroup_mem h
    exact ⟨v, hv, by rw [hrec]; rfl, Or.inl hcur⟩
  | cons row rest ih =>
    intro cur sess rec h
    simp only [fjdLoop] at h
    split at h
    · obtain ⟨v, hv, hid, hloc⟩ := ih cur (sess ++ [mkSession row]) rec h
      refine ⟨v, hv, hid, ?_⟩
      rcases hloc with hc | hm
      · exact Or.inl hc
      · exact Or.inr (by simp only [List.map_cons, List.mem_cons]; exact Or.inr hm)
    · rcases List.mem_append.mp h with hf | hr
      · obtain ⟨v, s0, rst, hcur, _, hv, hrec⟩ := flushGroup_mem hf
        exact ⟨v, hv, by rw [hrec]; rfl, Or.inl hcur⟩
      · obtain ⟨v, hv, hid, hloc⟩ := ih (some row.conv_id) [mkSession row] rec hr
        refine ⟨v, hv, hid, Or.inr ?_⟩
        simp only [List.map_cons, List.mem_cons]
        rcases hloc with hc | hm
        · exact Or.inl (Option.some.inj hc).symm
        · exact Or.inr hm

theorem fjdLoop_flush_pending (rows : List FRow) :
    ∀ (sess : List SessionDict) (v : PyVal), pyTruthy v = true → sess ≠ [] →
      ∃ rec ∈ fjdLoop (some v) sess rows, rec.conversion_id = pyStr v := by
  induction rows with
  | nil =>
    intro sess v hv hne
    cases sess with
    | nil => exact absurd rfl hne
    | cons s0 rst =>
      exact ⟨mkJourney v s0 rst, by simp [fjdLoop, flushGroup, hv], rfl⟩
  | cons row rest ih =>
    intro sess v hv hne
    simp only [fjdLoop]
    split
    · exact ih (sess ++ [mkSession row]) v hv (by simp)
    · cases sess with
      | nil => exact absurd rfl hne
      | cons s0 rst =>
        refine ⟨mkJourney v s0 rst, List.mem_append_left _ ?_, rfl⟩
        simp [flushGroup, hv]

theorem fjdLoop_emits (rows : List FRow) :
    ∀ (cur : Option PyVal) (sess : List SessionDict) (v : PyVal),
      pyTruthy v = true → v ∈ rows.map FRow.conv_id →
      ∃ rec ∈ fjdLoop cur sess rows, rec.conversion_id = pyStr v := by
  induction rows with
  | nil => intro _ _ _ _ hm; simp at hm
  | cons row rest ih =>
    intro cur sess v hv hm
    simp only [List.map_cons, List.mem_cons] at hm
    simp only [fjdLoop]
    split
    · rename_i hc
      rcases hm with hveq | hmem
      · rw [hc, ← hveq]
        exact fjdLoop_flush_pending rest (sess ++ [mkSession row]) v hv (by simp)
      · exact ih cur (sess ++ [mkSession row]) v hv hmem
    · rcases hm with hveq | hmem
      · obtain ⟨rec, hrmem, hrid⟩ :=
          fjdLoop_flush_pending rest [mkSession row] v hv (by simp)
        refine ⟨rec, List.mem_append_right _ ?_, hrid⟩
        rw [hveq] at hrmem
        exact hrmem
      · obtain ⟨rec, hrmem, hrid⟩ := ih (some row.conv_id) [mkSession row] v hv hmem
        exact ⟨rec, List.mem_append_right _ hrmem, hrid⟩

/-- C9: in `format_journey_data`, a conversion group whose `conv_id` is falsy
    (the integer 0 or the empty string, and likewise the initial None) never
    passes the emission guard `if current_conversion and current_sessions`,
    so it contributes no record — an all-falsy input produces an empty
    output — while every record that is emitted originates from a truthy
    conv_id present in the input, and every truthy conv_id present in the
    input gets at least one emitted record. -/
theorem c9_falsy_conv_id_groups_dropped (rows : List FRow) :
    ((∀ row ∈ rows, pyTruthy row.conv_id = false) →
      format_journey_data rows = []) ∧
    (∀ rec ∈ format_journey_data rows, ∃ v, pyTruthy v = true ∧
      rec.conversion_id = pyStr v ∧ v ∈ rows.map FRow.conv_id) ∧
    (∀ v : PyVal, pyTruthy v = true → v ∈ rows.map FRow.conv_id →
      ∃ rec ∈ format_journey_data rows, rec.conversion_id = pyStr v) := by
  have hmapmem : ∀ v : PyVal,
      v ∈ (List.insertionSort fmtRowLe rows).map FRow.conv_id ↔
      v ∈ rows.map FRow.conv_id := by
    intro v
    constructor <;> intro hv <;> rcases List.mem_map.mp hv with ⟨r, hr, hrv⟩
    · exact List.mem_map.mpr ⟨r, (List.mem_insertionSort fmtRowLe).mp hr, hrv⟩
    · exact List.mem_map.mpr ⟨r, (List.mem_insertionSort fmtRowLe).mpr hr, hrv⟩
  refine ⟨?_, ?_, ?_⟩
  · intro hall
    cases hout : format_journey_data rows with
    | nil => rfl
    | cons a as =>
      exfalso
      have hmem : a ∈ format_journey_data rows := by
        rw [hout]; exact List.mem_cons_self a as
      obtain ⟨v, hv, _, hloc⟩ :=
        fjdLoop_origin (List.insertionSort fmtRowLe rows) none [] a hmem
      rcases hloc with hc | hm
      · exact Option.noConfusion hc
      · rcases List.mem_map.mp ((hmapmem v).mp hm) with ⟨r, hr, hrv⟩
        have := hall r hr
        rw [hrv] at this
        rw [this] at hv
        exact Bool.noConfusion hv
  · intro rec hrec
    obtain ⟨v, hv, hid, hloc⟩ :=
      fjdLoop_origin (List.insertionSort fmtRowLe rows) none [] rec hrec
    rcases hloc with hc | hm
    · exact Option.noConfusion hc
    · exact ⟨v, hv, hid, (hmapmem v).mp hm⟩
  · intro v hv hm
    exact fjdLoop_emits (List.insertionSort fmtRowLe rows) none [] v hv
      ((hmapmem v).mpr hm)

/-- C9 witness: on a concrete input holding one group with conv_id `0` (falsy)
    and one with conv_id `"c9w"` (truthy), the truthy group is emitted. -/
theorem c9_falsy_conv_id_groups_dropped_witness :
    ∃ rec ∈ format_journey_data [fRowFalsy, fRowTruthy],
      rec.conversion_id = "c9w" :=
  (c9_falsy_conv_id_groups_dropped [fRowFalsy, fRowTruthy]).2.2
    (.str "c9w") (by decide) (by decide)

/- ----------------------------------------------------------------------
   Claim C4: retry bound of send_to_api.
   ---------------------------------------------------------------------- -/

theorem sendLoop_all_fail {α : Type} (t : Nat → TransportOutcome α)
    (hfail : ∀ n, attemptFails (t n) = true) :
    ∀ (r a : Nat), 1 ≤ r → sendLoop t a r = ⟨r, r - 1, none⟩ := by
  intro r
  induction r with
  | zero => intro a h; omega
  | succ r ih =>
    intro a _
    have hta := hfail a
    cases ht : t a with
    | exc =>
      simp only [sendLoop, ht]
      by_cases hr : r = 0
      · subst hr; simp
      · rw [if_neg hr, ih (a + 1) (Nat.one_le_iff_ne_zero.mpr hr)]
        have h2 : r - 1 + 1 = r + 1 - 1 := by omega
        show (⟨r + 1, r - 1 + 1, none⟩ : SendOutcome α) = ⟨r + 1, r + 1 - 1, none⟩
        rw [h2]
    | resp s body =>
      rw [ht] at hta
      simp only [attemptFails, decide_eq_true_eq] at hta
      simp only [sendLoop, ht]
      rw [if_pos hta]
      by_cases hr : r = 0
      · subst hr; simp
      · rw [if_neg hr, ih (a + 1) (Nat.one_le_iff_ne_zero.mpr hr)]
        have h2 : r - 1 + 1 = r + 1 - 1 := by omega
        show (⟨r + 1, r - 1 + 1, none⟩ : SendOutcome α) = ⟨r + 1, r + 1 - 1, none⟩
        rw [h2]

/-- C4 counterexample: the claim quantifies over transports that fail on every
    attempt "(network exception or non-2xx response)".  A transport that
    always returns status 304 — a non-2xx response — is such a transport, yet
    with `retry_count = 2` the code performs a single attempt, sleeps never,
    and returns that response's body instead of None: `raise_for_status` only
    raises for statuses in [400, 600), so 3xx responses are returned as
    successes. -/
theorem c4_counterexample_non2xx_304 :
    is2xx (transport304 0) = false ∧
    send_to_api transport304 2 = ⟨1, 0, some ()⟩ ∧
    (⟨1, 0, some ()⟩ : SendOutcome Unit) ≠ ⟨2, 1, none⟩ := by
  refine ⟨by decide, by decide, by decide⟩

/-- C4 (amended): for every `retry_count = k ≥ 1` and a transport that fails
    on every attempt in the sense of the code — a network exception or a
    response whose status is in [400, 600), the statuses `raise_for_status`
    raises on — `send_to_api` performs exactly k attempts with exactly k-1
    `retry_delay` sleeps between them and returns the failure sentinel None.
    (A non-2xx status outside [400, 600), such as 304, is instead returned as
    a success, see the counterexample.) -/
theorem c4_send_to_api_retry_bound {α : Type} (t : Nat → TransportOutcome α)
    (k : Nat) (hk : 1 ≤ k) (hfail : ∀ n, attemptFails (t n) = true) :
    send_to_api t k = ⟨k, k - 1, none⟩ :=
  sendLoop_all_fail t hfail k 0 hk

/-- C4 witness: an always-raising transport with `retry_count = 3` makes
    exactly 3 attempts, 2 sleeps, and returns None. -/
theorem c4_send_to_api_retry_bound_witness :
    send_to_api (fun _ => (TransportOutcome.exc : TransportOutcome Unit)) 3 =
      ⟨3, 2, none⟩ :=
  c4_send_to_api_retry_bound (fun _ => TransportOutcome.exc) 3 (by decide)
    (fun _ => rfl)

/- ----------------------------------------------------------------------
   Claims C5, C6, C8: the journey builder.
   ---------------------------------------------------------------------- -/

theorem joinedJourneys_mem {convs : List ConversionRow}
    {sessions : List SessionRow} {costs : List CostRow} {r : JourneyRow}
    (hr : r ∈ joinedJourneys convs sessions costs) :
    ∃ c ∈ convs, ∃ s ∈ sessions, ∃ ts tc,
      parseDateTime s.event_date s.event_time = some ts ∧
      parseDateTime c.conv_date c.conv_time = some tc ∧
      ts ≤ tc ∧ r = mkJourneyRow c s costs ts tc := by
  unfold joinedJourneys at hr
  rcases List.mem_flatMap.mp hr with ⟨c, hc, hr2⟩
  rcases List.mem_filterMap.mp hr2 with ⟨s, hs, hsome⟩
  have hsmem := (List.mem_filter.mp hs).1
  cases hts : parseDateTime s.event_date s.event_time with
  | none => rw [hts] at hsome; simp at hsome
  | some ts =>
    cases htc : parseDateTime c.conv_date c.conv_time with
    | none => rw [hts, htc] at hsome; simp at hsome
    | some tc =>
      rw [hts, htc] at hsome
      simp only [Option.ite_none_right_eq_some, Option.some.injEq] at hsome
      exact ⟨c, hc, s, hsmem, ts, tc, hts, htc, hsome.1, hsome.2.symm⟩

theorem build_journeys_mem_joined {convs : List ConversionRow}
    {sessions : List SessionRow} {costs : List CostRow}
    {sd ed : Option String} {r : JourneyRow}
    (hr : r ∈ build_journeys convs sessions costs sd ed) :
    r ∈ joinedJourneys convs sessions costs := by
  unfold build_journeys at hr
  have h2 := (List.mem_insertionSort jrowLe).mp hr
  split at h2
  · exact (List.mem_filter.mp h2).1
  · exact h2

/-- C5: every row returned by `build_journeys` satisfies the causality
    invariant: its session timestamp (parsed from event_date, event_time)
    is at most its conversion timestamp (parsed from conv_date, conv_time),
    and consequently the derived `time_to_conv` (hours between the two)
    is non-negative. -/
theorem c5_build_journeys_causality (convs : List ConversionRow)
    (sessions : List SessionRow) (costs : List CostRow)
    (sd ed : Option String) (r : JourneyRow)
    (hr : r ∈ build_journeys convs sessions costs sd ed) :
    parseDateTime r.event_date r.event_time = some r.session_ts ∧
    parseDateTime r.conv_date r.conv_time = some r.conv_ts ∧
    r.session_ts ≤ r.conv_ts ∧ 0 ≤ r.time_to_conv := by
  obtain ⟨c, hc, s, hs, ts, tc, hts, htc, hle, hreq⟩ :=
    joinedJourneys_mem (build_journeys_mem_joined hr)
  subst hreq
  refine ⟨hts, htc, hle, ?_⟩
  show (0 : Rat) ≤ (((tc : Int) - (ts : Int) : Int) : Rat) / (3600 : Rat)
  apply div_nonneg
  · have hz : (0 : Int) ≤ (tc : Int) - (ts : Int) := by omega
    exact_mod_cast hz
  · norm_num

/-- C5 witness: on a concrete conversion with one qualifying session, the
    produced row has session timestamp at most conversion timestamp and a
    non-negative `time_to_conv`. -/
theorem c5_build_journeys_causality_witness :
    ((build_journeys [convW] [sessW] [] none none).headD jrowDefault).session_ts
      ≤ ((build_journeys [convW] [sessW] [] none none).headD
          jrowDefault).conv_ts ∧
    0 ≤ ((build_journeys [convW] [sessW] [] none none).headD
          jrowDefault).time_to_conv := by
  have h := c5_build_journeys_causality [convW] [sessW] [] none none
    ((build_journeys [convW] [sessW] [] none none).headD jrowDefault)
    (headD_mem _ _ (by decide))
  exact ⟨h.2.2.1, h.2.2.2⟩

theorem jrowLe_conv_le {a b : JourneyRow} (h : jrowLe a b) :
    (strCmp a.conv_id b.conv_id).isLE = true := by
  unfold jrowLe jrowKeyCmp pairCmp at h
  cases hc : strCmp a.conv_id b.conv_id
  · rfl
  · rfl
  · rw [hc] at h
    simp [Ordering.then, Ordering.isLE] at h

/-- C6: the rows returned by `build_journeys` are sorted ascending by the
    lexicographic key (conv_id, event_date, event_time); in particular rows
    with equal conv_id are contiguous, so each conversion group is a block
    ordered by (event_date, event_time) whose last row is the most recent
    qualifying session. -/
theorem c6_build_journeys_sorted (convs : List ConversionRow)
    (sessions : List SessionRow) (costs : List CostRow)
    (sd ed : Option String) :
    List.Pairwise jrowLe (build_journeys convs sessions costs sd ed) ∧
    (∀ (i j k : Fin (build_journeys convs sessions costs sd ed).length),
      i ≤ j → j ≤ k →
      ((build_journeys convs sessions costs sd ed).get i).conv_id =
        ((build_journeys convs sessions costs sd ed).get k).conv_id →
      ((build_journeys convs sessions costs sd ed).get j).conv_id =
        ((build_journeys convs sessions costs sd ed).get i).conv_id) := by
  have hsorted : List.Pairwise jrowLe (build_journeys convs sessions costs sd ed) := by
    unfold build_journeys
    exact List.sorted_insertionSort jrowLe _
  refine ⟨hsorted, ?_⟩
  intro i j k hij hjk hik
  have hp := List.pairwise_iff_get.mp hsorted
  rcases eq_or_lt_of_le hij with heq1 | hlt1
  · rw [← heq1]
  · rcases eq_or_lt_of_le hjk with heq2 | hlt2
    · rw [heq2, hik]
    · have h1 := jrowLe_conv_le (hp i j hlt1)
      have h2 := jrowLe_conv_le (hp j k hlt2)
      rw [← hik] at h2
      exact strCmp_isLin.eq_of_isLE_both h2 h1

/-- C6 witness: the sortedness clause and the grouping clause instantiated on
    a concrete single-row result. -/
theorem c6_build_journeys_sorted_witness :
    List.Pairwise jrowLe (build_journeys [convW] [sessW] [] none none) ∧
    ((build_journeys [convW] [sessW] [] none none).get
        ⟨0, by decide⟩).conv_id =
      ((build_journeys [convW] [sessW] [] none none).get
        ⟨0, by decide⟩).conv_id :=
  ⟨(c6_build_journeys_sorted [convW] [sessW] [] none none).1,
    (c6_build_journeys_sorted [convW] [sessW] [] none none).2
      ⟨0, by decide⟩ ⟨0, by decide⟩ ⟨0, by decide⟩
      (le_refl _) (le_refl _) rfl⟩

/-- C8: with both dates supplied (and non-empty, since `start_date and
    end_date` uses Python truthiness), `build_journeys` restricts the result
    to rows whose conv_date lies in the inclusive lexicographic range
    [start_date, end_date]: every returned row satisfies the bounds, and every
    row the unfiltered query returns whose conv_date satisfies the bounds —
    e.g. a conversion with conv_date equal to start_date = end_date — is
    also returned by the filtered query. -/
theorem c8_build_journeys_date_filter (convs : List ConversionRow)
    (sessions : List SessionRow) (costs : List CostRow) (sd ed : String)
    (hsd : sd ≠ "") (hed : ed ≠ "") :
    (∀ r ∈ build_journeys convs sessions costs (some sd) (some ed),
      strLe sd r.conv_date = true ∧ strLe r.conv_date ed = true) ∧
    (∀ r ∈ build_journeys convs sessions costs none none,
      strLe sd r.conv_date = true → strLe r.conv_date ed = true →
      r ∈ build_journeys convs sessions costs (some sd) (some ed)) := by
  have hcond : pyTruthyOptStr (some sd) = true ∧ pyTruthyOptStr (some ed) = true := by
    simp [pyTruthyOptStr, hsd, hed]
  have hcond0 : ¬(pyTruthyOptStr (none : Option String) = true ∧
      pyTruthyOptStr (none : Option String) = true) := by
    simp [pyTruthyOptStr]
  constructor
  · intro r hr
    unfold build_journeys at hr
    rw [if_pos hcond] at hr
    have h2 := (List.mem_insertionSort jrowLe).mp hr
    have h3 := (List.mem_filter.mp h2).2
    simp only [Bool.and_eq_true] at h3
    exact h3
  · intro r hr hle1 hle2
    unfold build_journeys at hr ⊢
    rw [if_neg hcond0] at hr
    rw [if_pos hcond]
    have h2 := (List.mem_insertionSort jrowLe).mp hr
    refine (List.mem_insertionSort jrowLe).mpr (List.mem_filter.mpr ⟨h2, ?_⟩)
    simp only [Bool.and_eq_true]
    exact ⟨hle1, hle2⟩

/-- C8 witness: with start_date = end_date = the conversion's own date, the
    concrete row produced without the filter is also produced with it. -/
theorem c8_build_journeys_date_filter_witness :
    (build_journeys [convW] [sessW] [] none none).headD jrowDefault ∈
      build_journeys [convW] [sessW] [] (some "2024-01-01")
        (some "2024-01-01") :=
  (c8_build_journeys_date_filter [convW] [sessW] [] "2024-01-01" "2024-01-01"
      (by decide) (by decide)).2
    ((build_journeys [convW] [sessW] [] none none).headD jrowDefault)
    (headD_mem _ _ (by decide)) (by decide) (by decide)

/- ----------------------------------------------------------------------
   Claim C3: journey validation.
   ---------------------------------------------------------------------- -/

/-- C3: the claim states that validation only flags problems and never
    raises, including when a required column is absent.  The code disagrees
    on the missing-column case: after logging the missing-column warning it
    evaluates `df[required_columns]`, which raises KeyError, as the first
    conjunct shows on a DataFrame lacking `user_id`.  With all seven columns
    present the validation is indeed non-fatal: nulls and out-of-domain
    engagement values produce warnings and no exception. -/
theorem c3_validate_journeys_missing_column_raises :
    validate_journeys dfMissingUserId =
      { warnings := ["Missing required columns"], error := some "KeyError" } ∧
    (validate_journeys dfBadValues).error = none ∧
    (validate_journeys dfBadValues).warnings =
      ["Null values found", "Invalid values in holder_engagement"] := by
  refine ⟨by decide, by decide, by decide⟩

/- ----------------------------------------------------------------------
   Claim C7: export ratios.
   ---------------------------------------------------------------------- -/

/-- C7: for every exported report row (whose aggregate credit and cost are
    non-negative, as sums of non-negative contributions are), the exporter
    computes CPO = cost / ihc except that ihc = 0 yields CPO = +infinity, and
    ROAS = ihc_revenue / cost except that cost = 0 yields ROAS = 0; neither
    division-by-zero case is an error. -/
theorem c7_export_channel_report_ratios (rows : List ChannelAggRow)
    (row : ChannelReportRow) (hrow : row ∈ export_channel_report rows)
    (hihc : 0 ≤ row.ihc) (hcost : 0 ≤ row.cost) :
    (row.ihc = 0 → row.CPO = PyFloat.inf) ∧
    (row.ihc ≠ 0 → row.CPO = PyFloat.val (row.cost / row.ihc)) ∧
    (row.cost = 0 → row.ROAS = 0) ∧
    (row.cost ≠ 0 → row.ROAS = row.ihc_revenue / row.cost) := by
  unfold export_channel_report at hrow
  rcases List.mem_map.mp hrow with ⟨r, hr, hmk⟩
  subst hmk
  refine ⟨?_, ?_, ?_, ?_⟩
  · intro h0
    have h0' : r.ihc = 0 := h0
    show (if 0 < r.ihc then PyFloat.val (r.cost / r.ihc) else PyFloat.inf) =
      PyFloat.inf
    rw [if_neg (by rw [h0']; exact lt_irrefl 0)]
  · intro hne
    have hne' : r.ihc ≠ 0 := hne
    have hpos : 0 < r.ihc := lt_of_le_of_ne hihc (Ne.symm hne')
    show (if 0 < r.ihc then PyFloat.val (r.cost / r.ihc) else PyFloat.inf) =
      PyFloat.val ((mkReportRow r).cost / (mkReportRow r).ihc)
    rw [if_pos hpos]
    exact rfl
  · intro h0
    have h0' : r.cost = 0 := h0
    show (if 0 < r.cost then r.ihc_revenue / r.cost else 0) = 0
    rw [if_neg (by rw [h0']; exact lt_irrefl 0)]
  · intro hne
    have hne' : r.cost ≠ 0 := hne
    have hpos : 0 < r.cost := lt_of_le_of_ne hcost (Ne.symm hne')
    show (if 0 < r.cost then r.ihc_revenue / r.cost else 0) =
      (mkReportRow r).ihc_revenue / (mkReportRow r).cost
    rw [if_pos hpos]
    exact rfl

/-- C7 witness: a concrete aggregate row with ihc = 0 and cost = 2 exports
    CPO = +infinity. -/
theorem c7_export_channel_report_ratios_witness :
    ((export_channel_report [aggW]).headD reportDefault).CPO = PyFloat.inf :=
  (c7_export_channel_report_ratios [aggW]
      ((export_channel_report [aggW]).headD reportDefault)
      (headD_mem _ _ (by decide)) (by decide) (by decide)).1 (by decide)

/- ----------------------------------------------------------------------
   Claim C10: get_journey_stats on an empty DataFrame.
   ---------------------------------------------------------------------- -/

theorem nConversions_cons_ne_zero (a : JourneyRow) (as : List JourneyRow) :
    nConversions (a :: as) ≠ 0 := by
  simp [nConversions, uniqueFirst, uniqueAux]

/-- C10: `get_journey_stats` divides the row count by the number of distinct
    conv_id values, so an empty journeys DataFrame (zero distinct conv_id
    values) raises ZeroDivisionError, and a statistics dictionary is returned
    exactly when the input has at least one row. -/
theorem c10_get_journey_stats_empty_raises :
    get_journey_stats [] = .error "ZeroDivisionError" ∧
    ∀ rows : List JourneyRow,
      (∃ s, get_journey_stats rows = .ok s) ↔ rows ≠ [] := by
  refine ⟨rfl, ?_⟩
  intro rows
  constructor
  · rintro ⟨s, hs⟩ hnil
    subst hnil
    exact Except.noConfusion
      (show Except.error "ZeroDivisionError" = Except.ok s from hs)
  · intro hne
    cases rows with
    | nil => exact absurd rfl hne
    | cons a as =>
      unfold get_journey_stats
      rw [if_neg (nConversions_cons_ne_zero a as)]
      exact ⟨_, rfl⟩

/-- C10 witness: a one-row input yields a statistics dictionary. -/
theorem c10_get_journey_stats_empty_raises_witness :
    ∃ s, get_journey_stats [jrowW] = .ok s :=
  (c10_get_journey_stats_empty_raises.2 [jrowW]).mpr (by decide)
